import Mathlib

/-!
# Verification of the device-liveness detector of `vpn-aio-rust`

Shallow embedding of `src/network/monitor.rs` (the network device liveness
detector: ARP / TCP-scan / ping probes, the full and quick detectors, and the
/24 network sweep), together with proofs settling the specification claims.

Modelling conventions:

* Asynchronous I/O is modelled by an explicit environment (`Env`) recording the
  outcome every external operation would produce for the one target address of
  the call: the stdout of the `arp` subprocess (or `none` when spawning it
  fails), whether each `tokio::time::timeout` wrapper fires, the outcome of a
  TCP connect per port, and the exit status plus stdout of `ping`.
* `timeout(d, fut).await` has three outcomes for a fallible probe `fut`:
  `Ok(Ok b)`, `Ok(Err e)`, `Err(Elapsed)`; these are `TimedResult.ok b`,
  `TimedResult.err e`, `TimedResult.timedOut`.
* Durations are naturals in milliseconds.  `start_time.elapsed()` readings are
  supplied by the environment (`elapsedArp`, `elapsedTcp`, `elapsedPing`), one
  per return point of `detect_device`.
* The `cfg(not(windows))` branches of the platform-conditional probes are the
  ones embedded (the Unix `arp -n` / `ping -c 1` code paths).
* Rust's `str::contains` is substring containment, embedded as `strContains`.
* `ip.parse::<IpAddr>()` from the Rust standard library is embedded as
  `parseIpAddr`, faithful on IPv4 dotted-quad text and on colon-free invalid
  text; IPv6 literals (which always contain a colon) are conservatively
  rejected, which no claim exercises.
-/

namespace Monitor

/-- Split a character list at every character satisfying `p`, keeping empty
groups, as Rust's `str::split` does (`"a..b".split('.')` = `["a","","b"]`,
`"".split('.')` = `[""]`). -/
def splitPred (p : Char → Bool) : List Char → List (List Char)
  | [] => [[]]
  | c :: rest =>
    if p c then [] :: splitPred p rest
    else
      match splitPred p rest with
      | [] => [[c]]
      | g :: gs => (c :: g) :: gs

/-- Rust `str::split(sep)` for a one-character separator. -/
def strSplitChar (s : String) (sep : Char) : List String :=
  (splitPred (fun c => c == sep) s.data).map String.mk

/-- `needle` occurs as a contiguous prefix of some suffix of `hay`. -/
def containsAux (needle : List Char) : List Char → Bool
  | [] => needle.isEmpty
  | c :: rest => needle.isPrefixOf (c :: rest) || containsAux needle rest

/-- Rust `str::contains`: `needle` occurs as a contiguous substring of `hay`. -/
def strContains (hay needle : String) : Bool :=
  containsAux needle.data hay.data

/-- Outcome of `timeout(d, fut).await` for a probe `fut : Result<bool>`. -/
inductive TimedResult where
  | ok (b : Bool)
  | err (msg : String)
  | timedOut
deriving Repr, DecidableEq

/-- A probe step is positive exactly when it yields `Ok(Ok(true))`. -/
def TimedResult.isPos : TimedResult → Bool
  | .ok true => true
  | _ => false

/-- Fold a fallible probe result into the `timeout`-wrapper outcome space. -/
def TimedResult.ofExcept : Except String Bool → TimedResult
  | .ok b => .ok b
  | .error e => .err e

/-- Parse one decimal octet the way Rust's `Ipv4Addr::from_str` does: only
digits, nonempty, no leading zero (except `"0"` itself), value at most 255. -/
def parseOctet (s : String) : Option Nat :=
  if s.data = [] then none
  else if !s.data.all Char.isDigit then none
  else if s.data.length > 1 && s.data.headD '0' == '0' then none
  else
    let v := s.data.foldl (fun n c => n * 10 + (c.toNat - 48)) 0
    if v ≤ 255 then some v else none

/-- An IP address as used by the scanner (IPv4 dotted quad). -/
structure IpAddr where
  a : Nat
  b : Nat
  c : Nat
  d : Nat
deriving Repr, DecidableEq

/-- `Ipv4Addr::from_str`: four dot-separated decimal octets. -/
def parseIpv4 (s : String) : Option IpAddr :=
  match strSplitChar s '.' with
  | [a, b, c, d] =>
    match parseOctet a, parseOctet b, parseOctet c, parseOctet d with
    | some x, some y, some z, some w => some ⟨x, y, z, w⟩
    | _, _, _, _ => none
  | _ => none

/-- `ip.parse::<IpAddr>()`.  Faithful on IPv4 text and colon-free invalid text;
IPv6 literals (always containing a colon) are conservatively rejected — no
claim exercises an IPv6 input. -/
def parseIpAddr (s : String) : Option IpAddr :=
  parseIpv4 s

/-- Outcome of `timeout(per_port, TcpStream::connect(addr)).await` for one
port: `Ok(Ok(stream))`, `Ok(Err(e))` (closed / refused), `Err(Elapsed)`. -/
inductive ConnectOutcome where
  | connected
  | refused
  | timedOut
deriving Repr, DecidableEq

/-- `DeviceDetectionResult` of `monitor.rs` (durations in milliseconds; the
`details` text is kept without the `{:?}`-formatted elapsed duration, which no
claim inspects). -/
structure DeviceDetectionResult where
  is_online : Bool
  method_used : String
  response_time : Option Nat
  details : String
deriving Repr, DecidableEq

/-- `DeviceInfo` of `monitor.rs`. -/
structure DeviceInfo where
  ip_address : String
  method_detected : String
  response_time : Option Nat
  details : String
deriving Repr, DecidableEq

/-- Environment of one detector call for one target address: the outcome every
external operation would produce. -/
structure Env where
  /-- stdout of `arp -n ip`; `none` models `cmd.output()` returning `Err`. -/
  arpCmd : Option String
  /-- the 1 s `timeout` wrapper around the ARP probe of `detect_device` fires. -/
  arpTimedOut : Bool
  /-- outcome of the 500 ms-bounded TCP connect to each port (full scan). -/
  connect : Nat → ConnectOutcome
  /-- the 2 s `timeout` wrapper around `tcp_port_scan` fires. -/
  tcpTimedOut : Bool
  /-- exit-status success flag and stdout of `ping -c 1 -W 1 ip`;
  `none` models `cmd.output()` returning `Err`. -/
  pingOutput : Option (Bool × String)
  /-- the 3 s `timeout` wrapper around `ping_device_internal` fires. -/
  pingTimedOut : Bool
  /-- `start_time.elapsed()` reading at the ARP-positive return point. -/
  elapsedArp : Nat
  /-- `start_time.elapsed()` reading at the TCP-positive return point. -/
  elapsedTcp : Nat
  /-- `start_time.elapsed()` reading at the ping-positive return point. -/
  elapsedPing : Nat
  /-- the 500 ms `timeout` wrapper around the ARP probe of
  `quick_device_check` fires. -/
  quickArpTimedOut : Bool
  /-- outcome of the 200 ms-bounded TCP connect to each port (quick scan). -/
  quickConnect : Nat → ConnectOutcome
  /-- the 1 s `timeout` wrapper around `tcp_port_scan_quick` fires. -/
  quickTcpTimedOut : Bool
  /-- stdout of the separate `arp -n ip` run by `get_mac_address`;
  `none` models `cmd.output()` returning `Err`. -/
  macCmd : Option String

/-- `check_arp_table` (`cfg(not(windows))` branch): run `arp -n ip`; positive
iff the stdout contains the address, contains `":"` (a resolved MAC address
separator) and does not contain `"incomplete"`.  A failed `cmd.output()`
surfaces as `Err` via the `?` operator. -/
def check_arp_table (ip : String) (cmdOut : Option String) : Except String Bool :=
  match cmdOut with
  | none => .error "arp command failed"
  | some stdout =>
    .ok (strContains stdout ip && strContains stdout ":" &&
         !strContains stdout "incomplete")

/-- `ping_device_internal` (`cfg(not(windows))` branch): run
`ping -c 1 -W 1 ip`; on success exit status, positive iff stdout contains
`"ttl="` or `"time="`; on failure exit status, negative.  A failed
`cmd.output()` surfaces as `Err` via the `?` operator. -/
def ping_device_internal (cmdOut : Option (Bool × String)) : Except String Bool :=
  match cmdOut with
  | none => .error "ping command failed"
  | some (success, stdout) =>
    if success then .ok (strContains stdout "ttl=" || strContains stdout "time=")
    else .ok false

/-- The fixed port list of `tcp_port_scan`. -/
def common_ports : List Nat :=
  [22, 23, 80, 135, 139, 443, 445, 3389, 5900, 8080]

/-- The fixed port list of `tcp_port_scan_quick`. -/
def quick_ports : List Nat :=
  [80, 443, 22, 3389, 445]

/-- The port-iteration loop shared by both TCP scans: return `true` at the
first port whose bounded connect succeeds, skip refused and timed-out ports,
return `false` after the list is exhausted. -/
def scanPorts (ports : List Nat) (connect : Nat → ConnectOutcome) : Bool :=
  match ports with
  | [] => false
  | p :: rest =>
    match connect p with
    | .connected => true
    | .refused => scanPorts rest connect
    | .timedOut => scanPorts rest connect

/-- The ports the loop actually attempts a connect on, in order: every port up
to and including the first successful one, or the whole list when none
succeeds. -/
def attemptedPorts (ports : List Nat) (connect : Nat → ConnectOutcome) : List Nat :=
  match ports with
  | [] => []
  | p :: rest =>
    match connect p with
    | .connected => [p]
    | .refused => p :: attemptedPorts rest connect
    | .timedOut => p :: attemptedPorts rest connect

/-- `tcp_port_scan`: `ip.parse::<IpAddr>()?` then the connect loop over
`common_ports` with a 500 ms per-port timeout. -/
def tcp_port_scan (ip : String) (connect : Nat → ConnectOutcome) : Except String Bool :=
  match parseIpAddr ip with
  | none => .error "invalid IP address syntax"
  | some _ => .ok (scanPorts common_ports connect)

/-- `tcp_port_scan_quick`: `ip.parse::<IpAddr>()?` then the connect loop over
`quick_ports` with a 200 ms per-port timeout. -/
def tcp_port_scan_quick (ip : String) (connect : Nat → ConnectOutcome) : Except String Bool :=
  match parseIpAddr ip with
  | none => .error "invalid IP address syntax"
  | some _ => .ok (scanPorts quick_ports connect)

/-- Outcome of `timeout(Duration::from_secs(1), check_arp_table(ip)).await`
in `detect_device`. -/
def arpOutcome (ip : String) (env : Env) : TimedResult :=
  if env.arpTimedOut then .timedOut
  else .ofExcept (check_arp_table ip env.arpCmd)

/-- Outcome of `timeout(Duration::from_secs(2), tcp_port_scan(ip)).await`
in `detect_device`. -/
def tcpOutcome (ip : String) (env : Env) : TimedResult :=
  if env.tcpTimedOut then .timedOut
  else .ofExcept (tcp_port_scan ip env.connect)

/-- Outcome of `timeout(Duration::from_secs(3), ping_device_internal(ip)).await`
in `detect_device`. -/
def pingOutcome (env : Env) : TimedResult :=
  if env.pingTimedOut then .timedOut
  else .ofExcept (ping_device_internal env.pingOutput)

/-- The all-probes-negative result of `detect_device`. -/
def offlineResult : DeviceDetectionResult :=
  { is_online := false
    method_used := "ALL_METHODS"
    response_time := none
    details := "Device not detected by any method" }

/-- `detect_device`: ARP (1 s), then TCP scan (2 s), then ping (3 s); each
stage's `match` returns early exactly on `Ok(Ok(true))` — that is, when the
stage `isPos` — while `Ok(Ok(false))`, `Ok(Err(_))` and `Err(_)` only log and
fall through; if no probe is positive, the device is reported offline. -/
def detect_device (ip : String) (env : Env) : Except String DeviceDetectionResult :=
  if (arpOutcome ip env).isPos then
    .ok { is_online := true, method_used := "ARP",
          response_time := some env.elapsedArp,
          details := "Device detected via ARP" }
  else if (tcpOutcome ip env).isPos then
    .ok { is_online := true, method_used := "TCP_SCAN",
          response_time := some env.elapsedTcp,
          details := "Device detected via TCP scan" }
  else if (pingOutcome env).isPos then
    .ok { is_online := true, method_used := "PING",
          response_time := some env.elapsedPing,
          details := "Device detected via PING" }
  else .ok offlineResult

/-- `ping_device`: forward `detect_device`'s online flag, propagating an error
unchanged. -/
def ping_device (ip : String) (env : Env) : Except String Bool :=
  match detect_device ip env with
  | .ok result => .ok result.is_online
  | .error e => .error e

/-- Outcome of `timeout(Duration::from_millis(500), check_arp_table(ip)).await`
in `quick_device_check`. -/
def arpQuickOutcome (ip : String) (env : Env) : TimedResult :=
  if env.quickArpTimedOut then .timedOut
  else .ofExcept (check_arp_table ip env.arpCmd)

/-- Outcome of
`timeout(Duration::from_millis(1000), tcp_port_scan_quick(ip)).await`
in `quick_device_check`. -/
def tcpQuickOutcome (ip : String) (env : Env) : TimedResult :=
  if env.quickTcpTimedOut then .timedOut
  else .ofExcept (tcp_port_scan_quick ip env.quickConnect)

/-- `quick_device_check`: ARP (500 ms) then quick TCP scan (1 s); `true` at the
first `Ok(Ok(true))`, every other outcome of either probe falls through, and
`false` when neither probe is positive.  No ping stage exists. -/
def quick_device_check (ip : String) (env : Env) : Bool :=
  if (arpQuickOutcome ip env).isPos then true
  else if (tcpQuickOutcome ip env).isPos then true
  else false

/-- The identifier of the probe that produced a detection, as used by the
trace-level statements. -/
inductive ProbeKind where
  | arp
  | tcpScan
  | ping
deriving Repr, DecidableEq

/-- One probe execution of a detector run: which probe, the millisecond budget
of its `timeout` wrapper, the port list and per-port connect budget for TCP
scans, and whether it reported positive. -/
structure TraceStep where
  kind : ProbeKind
  timeoutMs : Nat
  ports : List Nat
  perPortTimeoutMs : Option Nat
  positive : Bool
deriving Repr, DecidableEq

/-- The configuration part of a trace step. -/
def stepMeta (s : TraceStep) : ProbeKind × Nat × List Nat × Option Nat :=
  (s.kind, s.timeoutMs, s.ports, s.perPortTimeoutMs)

/-- The three probe executions `detect_device` would run when nothing
short-circuits, with the timeout constants of the source
(`from_secs(1)`, `from_secs(2)` with 500 ms per port, `from_secs(3)`). -/
def fullSteps (ip : String) (env : Env) : List TraceStep :=
  [ ⟨.arp, 1000, [], none, (arpOutcome ip env).isPos⟩,
    ⟨.tcpScan, 2000, common_ports, some 500, (tcpOutcome ip env).isPos⟩,
    ⟨.ping, 3000, [], none, (pingOutcome env).isPos⟩ ]

/-- The probes `detect_device` actually runs, in execution order, mirroring its
early returns: the ARP stage always runs; each later stage runs only when every
earlier stage was non-positive. -/
def detect_trace (ip : String) (env : Env) : List TraceStep :=
  let s1 : TraceStep := ⟨.arp, 1000, [], none, (arpOutcome ip env).isPos⟩
  if (arpOutcome ip env).isPos then [s1]
  else
    let s2 : TraceStep :=
      ⟨.tcpScan, 2000, common_ports, some 500, (tcpOutcome ip env).isPos⟩
    if (tcpOutcome ip env).isPos then [s1, s2]
    else [s1, s2, ⟨.ping, 3000, [], none, (pingOutcome env).isPos⟩]

/-- The probes `quick_device_check` actually runs, in execution order, with the
timeout constants of the source (`from_millis(500)`, `from_millis(1000)` with
200 ms per port). -/
def quick_trace (ip : String) (env : Env) : List TraceStep :=
  let s1 : TraceStep := ⟨.arp, 500, [], none, (arpQuickOutcome ip env).isPos⟩
  if (arpQuickOutcome ip env).isPos then [s1]
  else [s1, ⟨.tcpScan, 1000, quick_ports, some 200, (tcpQuickOutcome ip env).isPos⟩]

/-- Cut a step list at its first positive step, keeping that step. -/
def takeThroughPositive : List TraceStep → List TraceStep
  | [] => []
  | s :: rest => if s.positive then [s] else s :: takeThroughPositive rest

/-- The method string `detect_device` attaches for each probe kind. -/
def methodString : ProbeKind → String
  | .arp => "ARP"
  | .tcpScan => "TCP_SCAN"
  | .ping => "PING"

/-- The details string `detect_device` attaches for each probe kind. -/
def detailMsg : ProbeKind → String
  | .arp => "Device detected via ARP"
  | .tcpScan => "Device detected via TCP scan"
  | .ping => "Device detected via PING"

/-- The `start_time.elapsed()` reading taken at each probe's return point. -/
def elapsedOf (env : Env) : ProbeKind → Nat
  | .arp => env.elapsedArp
  | .tcpScan => env.elapsedTcp
  | .ping => env.elapsedPing

/-- The detection result determined by a detector trace: the result of the last
step when it is positive, the offline record otherwise. -/
def resultOfTrace (env : Env) (trace : List TraceStep) : DeviceDetectionResult :=
  match trace.getLast? with
  | some s =>
    if s.positive then
      { is_online := true, method_used := methodString s.kind,
        response_time := some (elapsedOf env s.kind),
        details := detailMsg s.kind }
    else offlineResult
  | none => offlineResult

/-- The specification's `DetectionResult.method` enum
(`{Arp, TcpScan, Ping, None}`), as an abstraction of the code's `method_used`
string: the three probe tags map to the corresponding variant, every other
string — in particular the offline tag `"ALL_METHODS"` — to `None`.
Modelled from the spec: the spec-side data model of section 3, used for the
refinement claims about `method = None`. -/
def specMethod (method_used : String) : Option ProbeKind :=
  if method_used = "ARP" then some .arp
  else if method_used = "TCP_SCAN" then some .tcpScan
  else if method_used = "PING" then some .ping
  else none

/-- `get_mac_address` (`cfg(not(windows))` branch): run `arp -n ip`, scan the
stdout lines in order, and return the third whitespace-separated field of the
first line that contains the address and has at least three fields; error when
no such line exists or the command fails. -/
def get_mac_address (ip : String) (cmdOut : Option String) : Except String String :=
  match cmdOut with
  | none => .error "arp command failed"
  | some stdout =>
    let hit := (strSplitChar stdout '\n').findSome? fun line =>
      if strContains line ip then
        let parts := ((splitPred Char.isWhitespace line.data).map String.mk).filter
          (fun part => part ≠ "")
        parts[2]?
      else none
    match hit with
    | some mac => .ok mac
    | none => .error "MAC address not found"

/-- `detect_device_detailed`: run `detect_device` (propagating its error via
`?`); when the device is online and the MAC lookup succeeds, append the MAC to
the details. -/
def detect_device_detailed (ip : String) (env : Env) :
    Except String DeviceDetectionResult :=
  match detect_device ip env with
  | .error e => .error e
  | .ok result =>
    if result.is_online then
      match get_mac_address ip env.macCmd with
      | .ok mac =>
        .ok { result with details := result.details ++ " (MAC: " ++ mac ++ ")" }
      | .error _ => .ok result
    else .ok result

/-- The host addresses `scan_network` spawns probes for, in spawn order: when
`base_ip` splits on `'.'` into exactly four parts, the first three parts joined
with dots followed by `.1` through `.254`; otherwise no address at all. -/
def scan_network_targets (base_ip : String) : List String :=
  match strSplitChar base_ip '.' with
  | [a, b, c, _] =>
    (List.range 254).map fun i =>
      a ++ "." ++ b ++ "." ++ c ++ "." ++ Nat.repr (i + 1)
  | _ => []

/-- The per-host body of `scan_network`'s spawned task: `Some` of a
`DeviceInfo` when `detect_device_detailed` succeeds and reports online,
`None` otherwise. -/
def deviceInfoOf (env : String → Env) (ip : String) : Option DeviceInfo :=
  match detect_device_detailed ip (env ip) with
  | .ok result =>
    if result.is_online then
      some { ip_address := ip, method_detected := result.method_used,
             response_time := result.response_time, details := result.details }
    else none
  | .error _ => none

/-- `scan_network`: reject a `base_ip` that does not split into exactly four
dot-separated parts; otherwise spawn one probe task per host `.1`–`.254` and
collect, awaiting in spawn order, the `Some` results into the device list.
`env` supplies each host's probe environment. -/
def scan_network (base_ip : String) (env : String → Env) : List DeviceInfo :=
  (scan_network_targets base_ip).filterMap (deviceInfoOf env)

/-- The bounded connect to port `p` succeeds. -/
def isConn (connect : Nat → ConnectOutcome) (p : Nat) : Bool :=
  match connect p with
  | .connected => true
  | .refused => false
  | .timedOut => false

/-- A sweep entry is backed by a successful, online detection of its own
address. -/
def onlineEntry (env : String → Env) (d : DeviceInfo) : Bool :=
  match detect_device_detailed d.ip_address (env d.ip_address) with
  | .ok result => result.is_online
  | .error _ => false

/-- Concrete probe environment in which every probe is negative: the commands
run but their output matches nothing, every connect is refused, no timeout
fires. -/
def envAllNeg : Env :=
  { arpCmd := some ""
    arpTimedOut := false
    connect := fun _ => .refused
    tcpTimedOut := false
    pingOutput := some (true, "")
    pingTimedOut := false
    elapsedArp := 1
    elapsedTcp := 2
    elapsedPing := 3
    quickArpTimedOut := false
    quickConnect := fun _ => .refused
    quickTcpTimedOut := false
    macCmd := none }

/-- Concrete probe environment in which only the ping probe is positive. -/
def envPingPos : Env :=
  { envAllNeg with
      pingOutput := some (true, "64 bytes from host: icmp_seq=1 ttl=64 time=0.5 ms") }

/-- Concrete probe environment in which the ARP table binds the given address
to a MAC address, so the ARP probe is positive. -/
def envArpPos (ip : String) : Env :=
  { envAllNeg with
      arpCmd := some (ip ++ " ether aa:bb:cc:dd:ee:ff C eth0")
      macCmd := some (ip ++ " ether aa:bb:cc:dd:ee:ff C eth0") }

/-- Concrete connect map for the TCP-scan witnesses: only port 80 accepts. -/
def connOnly80 : Nat → ConnectOutcome :=
  fun p => if p = 80 then .connected else .refused

set_option maxRecDepth 16384

lemma detect_device_eq (ip : String) (env : Env) :
    detect_device ip env = Except.ok (resultOfTrace env (detect_trace ip env)) := by
  cases h1 : (arpOutcome ip env).isPos <;>
  cases h2 : (tcpOutcome ip env).isPos <;>
  cases h3 : (pingOutcome env).isPos <;>
  simp [detect_device, detect_trace, resultOfTrace, h1, h2, h3,
    methodString, detailMsg, elapsedOf]

/-- C9. For every IP address input, `detect_device` always returns the `Ok`
variant of its `Result` type — every internal probe error, timeout and parse
failure is absorbed into the offline result — and consequently `ping_device`
never returns an error either: it returns `Ok` of the detection's online
flag. -/
theorem claim_C9_no_error_escapes (ip : String) (env : Env) :
    ∃ r, detect_device ip env = Except.ok r ∧
      ping_device ip env = Except.ok r.is_online := by
  refine ⟨resultOfTrace env (detect_trace ip env), detect_device_eq ip env, ?_⟩
  simp [ping_device, detect_device_eq ip env]

/-- C3. When every probe of the plan completes or times out negative,
`detect_device` returns the offline record — online flag `false`, a
`method_used` that the specification's `method` enum abstracts to `None`, and
no latency; and conversely every result of `detect_device` whose abstracted
method is `None` has `is_online = false` and `response_time = none`. -/
theorem claim_C3_offline_shape (ip : String) (env : Env) :
    ((arpOutcome ip env).isPos = false → (tcpOutcome ip env).isPos = false →
      (pingOutcome env).isPos = false →
      detect_device ip env = Except.ok offlineResult ∧
      offlineResult.is_online = false ∧
      specMethod offlineResult.method_used = none ∧
      offlineResult.response_time = none) ∧
    (∀ r, detect_device ip env = Except.ok r → specMethod r.method_used = none →
      r.is_online = false ∧ r.response_time = none) := by
  constructor
  · intro h1 h2 h3
    refine ⟨by simp [detect_device, h1, h2, h3], rfl, by decide, rfl⟩
  · intro r hr hm
    cases h1 : (arpOutcome ip env).isPos <;>
    cases h2 : (tcpOutcome ip env).isPos <;>
    cases h3 : (pingOutcome env).isPos <;>
    simp [detect_device, h1, h2, h3] at hr <;>
    rw [← hr] at hm ⊢ <;>
    first
      | exact ⟨rfl, rfl⟩
      | simp [specMethod] at hm

/-- Closed witness for C3: in a concrete environment where the ARP table is
empty, every port refuses, and ping answers nothing, `detect_device` returns
the offline record, whose online flag and latency are empty. -/
theorem claim_C3_witness :
    detect_device "10.0.0.1" envAllNeg = Except.ok offlineResult ∧
    offlineResult.is_online = false ∧ offlineResult.response_time = none := by
  have h := claim_C3_offline_shape "10.0.0.1" envAllNeg
  have hofl := (h.1 (by decide) (by decide) (by decide)).1
  exact ⟨hofl, h.2 offlineResult hofl (by decide)⟩

/-- C2. For every IP address input, the full detector runs its probes in the
fixed order ARP (1 s timeout), TCP scan over the ordered port list
`[22, 23, 80, 135, 139, 443, 445, 3389, 5900, 8080]` with a 500 ms per-port
connect timeout under a 2 s overall timeout, then ping (3 s timeout); the
executed trace stops at the first positive probe (no later probe runs), every
probe before the last executed one is negative, and the returned result is the
one determined by the trace's last step: online, tagged with that probe's
method string and the elapsed-time reading taken at that return point when it
is positive, offline otherwise. -/
theorem claim_C2_full_plan (ip : String) (env : Env) :
    (fullSteps ip env).map stepMeta =
      [(ProbeKind.arp, 1000, ([] : List Nat), (none : Option Nat)),
       (ProbeKind.tcpScan, 2000,
         [22, 23, 80, 135, 139, 443, 445, 3389, 5900, 8080], some 500),
       (ProbeKind.ping, 3000, [], none)] ∧
    detect_trace ip env = takeThroughPositive (fullSteps ip env) ∧
    ((detect_trace ip env).dropLast.all fun s => !s.positive) = true ∧
    detect_device ip env = Except.ok (resultOfTrace env (detect_trace ip env)) := by
  refine ⟨by simp [fullSteps, stepMeta, common_ports], ?_, ?_,
    detect_device_eq ip env⟩ <;>
  cases h1 : (arpOutcome ip env).isPos <;>
  cases h2 : (tcpOutcome ip env).isPos <;>
  cases h3 : (pingOutcome env).isPos <;>
  simp [detect_trace, fullSteps, takeThroughPositive, h1, h2, h3]

lemma tcpOutcome_not_pos_of_parse_fail (ip : String) (env : Env)
    (h : parseIpAddr ip = none) : (tcpOutcome ip env).isPos = false := by
  cases ht : env.tcpTimedOut <;>
  simp [tcpOutcome, ht, tcp_port_scan, h, TimedResult.ofExcept, TimedResult.isPos]

/-- C4. Probe failures never cross the probe-to-detector boundary as errors:
an unparseable IP address makes `tcp_port_scan` return an explicit `Err`, the
TCP stage of `detect_device` treats that probe as negative, and — whenever the
ARP stage was also negative — `detect_device` continues with the ping probe
and returns its outcome (online via ping, or the offline record) rather than
aborting or propagating the error. -/
theorem claim_C4_parse_error_contained (ip : String) (env : Env)
    (h : parseIpAddr ip = none) :
    (∃ e, tcp_port_scan ip env.connect = Except.error e) ∧
    (tcpOutcome ip env).isPos = false ∧
    ((arpOutcome ip env).isPos = false →
      detect_device ip env =
        Except.ok
          (if (pingOutcome env).isPos then
            { is_online := true, method_used := "PING",
              response_time := some env.elapsedPing,
              details := "Device detected via PING" }
          else offlineResult)) := by
  refine ⟨⟨"invalid IP address syntax", by simp [tcp_port_scan, h]⟩,
    tcpOutcome_not_pos_of_parse_fail ip env h, ?_⟩
  intro ha
  cases hp : (pingOutcome env).isPos <;>
  simp [detect_device, ha, tcpOutcome_not_pos_of_parse_fail ip env h, hp]

/-- Closed witness for C4: on the unparseable address `"not-an-ip"`, with an
empty ARP table and a responding ping, the TCP helper errors yet
`detect_device` still reports the device online via ping. -/
theorem claim_C4_witness :
    tcp_port_scan "not-an-ip" envPingPos.connect =
      Except.error "invalid IP address syntax" ∧
    detect_device "not-an-ip" envPingPos =
      Except.ok { is_online := true, method_used := "PING",
                  response_time := some 3,
                  details := "Device detected via PING" } := by
  have h := claim_C4_parse_error_contained "not-an-ip" envPingPos (by decide)
  refine ⟨rfl, ?_⟩
  rw [h.2.2 (by decide)]
  rfl

/-- C5. For every IP address input, the quick check runs only an ARP lookup
(500 ms timeout) followed by a TCP scan over exactly the ports
`[80, 443, 22, 3389, 445]` with a 200 ms per-port connect timeout under a 1 s
overall timeout — its trace never contains a ping step — and it returns `true`
exactly when one of those two probes reports positive; the outcome moreover
depends only on the ARP and quick-TCP parts of the environment, never on the
ping part. -/
theorem claim_C5_quick_plan (ip : String) (env : Env) :
    quick_device_check ip env =
      ((arpQuickOutcome ip env).isPos || (tcpQuickOutcome ip env).isPos) ∧
    ((quick_trace ip env).all fun s => s.kind != ProbeKind.ping) = true ∧
    (quick_trace ip env).map stepMeta =
      (ProbeKind.arp, 500, ([] : List Nat), (none : Option Nat)) ::
        (if (arpQuickOutcome ip env).isPos then []
         else [(ProbeKind.tcpScan, 1000, [80, 443, 22, 3389, 445], some 200)]) ∧
    quick_ports = [80, 443, 22, 3389, 445] ∧
    (∀ env2 : Env, env2.arpCmd = env.arpCmd →
      env2.quickArpTimedOut = env.quickArpTimedOut →
      env2.quickConnect = env.quickConnect →
      env2.quickTcpTimedOut = env.quickTcpTimedOut →
      quick_device_check ip env2 = quick_device_check ip env) := by
  refine ⟨?_, ?_, ?_, rfl, ?_⟩
  · cases h1 : (arpQuickOutcome ip env).isPos <;>
    cases h2 : (tcpQuickOutcome ip env).isPos <;>
    simp [quick_device_check, h1, h2]
  · cases h1 : (arpQuickOutcome ip env).isPos <;>
    simp [quick_trace, h1]
  · cases h1 : (arpQuickOutcome ip env).isPos <;>
    simp [quick_trace, stepMeta, quick_ports, h1]
  · intro env2 e1 e2 e3 e4
    simp [quick_device_check, arpQuickOutcome, tcpQuickOutcome,
      tcp_port_scan_quick, e1, e2, e3, e4]

/-- Closed witness for C5: two concrete environments that differ only in their
ping responses give the same quick-check outcome, evaluated concretely. -/
theorem claim_C5_witness :
    quick_device_check "10.0.0.5" envPingPos =
      quick_device_check "10.0.0.5" envAllNeg ∧
    quick_device_check "10.0.0.5" envAllNeg = false := by
  refine ⟨(claim_C5_quick_plan "10.0.0.5" envAllNeg).2.2.2.2 envPingPos
    rfl rfl rfl rfl, by decide⟩

lemma scanPorts_eq_any (ports : List Nat) (c : Nat → ConnectOutcome) :
    scanPorts ports c = ports.any (isConn c) := by
  induction ports with
  | nil => rfl
  | cons p rest ih => cases hc : c p <;> simp [scanPorts, isConn, hc, ih]

lemma attemptedPorts_eq (ports : List Nat) (c : Nat → ConnectOutcome) :
    attemptedPorts ports c =
      ports.takeWhile (fun p => !isConn c p) ++
        (ports.dropWhile (fun p => !isConn c p)).take 1 := by
  induction ports with
  | nil => rfl
  | cons p rest ih => cases hc : c p <;> simp [attemptedPorts, isConn, hc, ih]

lemma attemptedPorts_of_neg (ports : List Nat) (c : Nat → ConnectOutcome)
    (h : scanPorts ports c = false) : attemptedPorts ports c = ports := by
  induction ports with
  | nil => rfl
  | cons p rest ih =>
    cases hc : c p <;> simp [scanPorts, hc] at h <;>
    simp [attemptedPorts, hc, ih h]

/-- C6. For every IP address and ordered port list, the TCP connect scan
returns positive exactly when some port's connect succeeds, attempts — in list
order — every refused or timed-out port up to and including the first
successful one (skipping the failures silently), declares negative only after
attempting every port of the list, and the scanner wraps this loop over its
fixed port list after a successful address parse. -/
theorem claim_C6_scan_order (ip : String) (c : Nat → ConnectOutcome)
    (ports : List Nat) (a : IpAddr) (h : parseIpAddr ip = some a) :
    scanPorts ports c = ports.any (isConn c) ∧
    attemptedPorts ports c =
      ports.takeWhile (fun p => !isConn c p) ++
        (ports.dropWhile (fun p => !isConn c p)).take 1 ∧
    (scanPorts ports c = false → attemptedPorts ports c = ports) ∧
    tcp_port_scan ip c = Except.ok (scanPorts common_ports c) := by
  exact ⟨scanPorts_eq_any ports c, attemptedPorts_eq ports c,
    attemptedPorts_of_neg ports c, by simp [tcp_port_scan, h]⟩

/-- Closed witness for C6: with only port 80 accepting, the scan over
`[22, 80, 443]` is positive, attempts exactly `[22, 80]`, and the full scanner
over the fixed port list reports `true` at the parseable address
`"192.168.1.7"`. -/
theorem claim_C6_witness :
    scanPorts [22, 80, 443] connOnly80 = true ∧
    attemptedPorts [22, 80, 443] connOnly80 = [22, 80] ∧
    tcp_port_scan "192.168.1.7" connOnly80 = Except.ok true := by
  have h := claim_C6_scan_order "192.168.1.7" connOnly80 [22, 80, 443]
    ⟨192, 168, 1, 7⟩ (by decide)
  refine ⟨?_, ?_, ?_⟩
  · rw [h.1]; decide
  · rw [h.2.1]; decide
  · rw [h.2.2.2]; rfl

/-- C7. For every IP address and every ARP-utility output, the ARP probe
returns positive only if the output contains the queried address together with
a resolved hardware address (a `":"`-separated MAC, per the code's check) and
is not marked `"incomplete"`; an output without a hardware-address separator,
or one marked incomplete, yields a negative outcome. -/
theorem claim_C7_arp_requires_mac (ip out : String) :
    (check_arp_table ip (some out) = Except.ok true →
      strContains out ip = true ∧ strContains out ":" = true ∧
      strContains out "incomplete" = false) ∧
    (strContains out ":" = false →
      check_arp_table ip (some out) = Except.ok false) ∧
    (strContains out "incomplete" = true →
      check_arp_table ip (some out) = Except.ok false) ∧
    check_arp_table ip (some out) =
      Except.ok (strContains out ip && strContains out ":" &&
        !strContains out "incomplete") := by
  cases h1 : strContains out ip <;> cases h2 : strContains out ":" <;>
  cases h3 : strContains out "incomplete" <;>
  simp [check_arp_table, h1, h2, h3]

/-- Closed witness for C7: a resolved ARP entry is positive and therefore
contains the address, a colon and no `"incomplete"` marker; an incomplete
entry and a colon-free output are both negative. -/
theorem claim_C7_witness :
    (strContains "? (192.168.1.5) at aa:bb:cc:dd:ee:ff [ether] on eth0"
        "192.168.1.5" = true ∧
      strContains "? (192.168.1.5) at aa:bb:cc:dd:ee:ff [ether] on eth0"
        ":" = true ∧
      strContains "? (192.168.1.5) at aa:bb:cc:dd:ee:ff [ether] on eth0"
        "incomplete" = false) ∧
    check_arp_table "10.0.0.9" (some "? (10.0.0.9) at <incomplete> on eth0") =
      Except.ok false ∧
    check_arp_table "10.0.0.7" (some "no entry for 10.0.0.7 here") =
      Except.ok false := by
  refine ⟨(claim_C7_arp_requires_mac "192.168.1.5"
      "? (192.168.1.5) at aa:bb:cc:dd:ee:ff [ether] on eth0").1 rfl,
    (claim_C7_arp_requires_mac "10.0.0.9"
      "? (10.0.0.9) at <incomplete> on eth0").2.2.1 (by decide),
    (claim_C7_arp_requires_mac "10.0.0.7"
      "no entry for 10.0.0.7 here").2.1 (by decide)⟩

/-- C8. The syntactically invalid address `"not-an-ip"` does not parse, the
TCP-scan helper surfaces this as its one scoped input-validation error, yet
`detect_device` on that input always returns a result (never an error), and
when no probe is spuriously positive that result is the offline record — no
failure escapes the detection core. -/
theorem claim_C8_malformed_input (env : Env) :
    parseIpAddr "not-an-ip" = none ∧
    (∀ c, tcp_port_scan "not-an-ip" c =
      Except.error "invalid IP address syntax") ∧
    (∃ r, detect_device "not-an-ip" env = Except.ok r) ∧
    ((arpOutcome "not-an-ip" env).isPos = false →
      (pingOutcome env).isPos = false →
      detect_device "not-an-ip" env = Except.ok offlineResult) := by
  have hp : parseIpAddr "not-an-ip" = none := by decide
  refine ⟨hp, fun c => by simp [tcp_port_scan, hp],
    ⟨_, detect_device_eq "not-an-ip" env⟩, ?_⟩
  intro h1 h3
  simp [detect_device, h1, tcpOutcome_not_pos_of_parse_fail "not-an-ip" env hp, h3]

/-- Closed witness for C8: in the all-negative environment, `detect_device` on
`"not-an-ip"` returns the offline record. -/
theorem claim_C8_witness :
    detect_device "not-an-ip" envAllNeg = Except.ok offlineResult :=
  (claim_C8_malformed_input envAllNeg).2.2.2 (by decide) (by decide)

lemma deviceInfoOf_eq_some (env : String → Env) (ip : String) (d : DeviceInfo)
    (hd : deviceInfoOf env ip = some d) :
    d.ip_address = ip ∧
    ∃ result, detect_device_detailed ip (env ip) = Except.ok result ∧
      result.is_online = true := by
  unfold deviceInfoOf at hd
  cases hr : detect_device_detailed ip (env ip) with
  | error e => rw [hr] at hd; cases hd
  | ok result =>
    rw [hr] at hd
    cases ho : result.is_online with
    | false => simp [ho] at hd
    | true =>
      simp [ho] at hd
      exact ⟨by rw [← hd], result, rfl, ho⟩

lemma all_onlineEntry (env : String → Env) (l : List String) :
    ((l.filterMap (deviceInfoOf env)).all (onlineEntry env)) = true := by
  induction l with
  | nil => rfl
  | cons ip rest ih =>
    cases hd : deviceInfoOf env ip with
    | none => simpa [List.filterMap_cons, hd] using ih
    | some d =>
      obtain ⟨hip, result, hr, ho⟩ := deviceInfoOf_eq_some env ip d hd
      simp [List.filterMap_cons, hd, List.all_cons, ih, onlineEntry, hip, hr, ho]

lemma map_ip_filterMap_sublist (env : String → Env) (l : List String) :
    ((l.filterMap (deviceInfoOf env)).map DeviceInfo.ip_address).Sublist l := by
  induction l with
  | nil => simp
  | cons ip rest ih =>
    cases hd : deviceInfoOf env ip with
    | none =>
      simpa [List.filterMap_cons, hd] using ih.cons ip
    | some d =>
      have hip := (deviceInfoOf_eq_some env ip d hd).1
      simpa [List.filterMap_cons, hd, hip] using ih.cons₂ ip

/-- C1 counterexample. Calling the sweep with the bare three-octet prefix
`"192.168.1"` — as the claim prescribes — spawns no probe at all and returns
the empty device list, even in an environment whose ARP table binds every
address (so host `.1`, probed directly, is detected online).  The claim's
promise of 254 probed hosts is therefore false at this input. -/
theorem claim_C1_counterexample :
    scan_network "192.168.1" (fun ip => envArpPos ip) = [] ∧
    scan_network_targets "192.168.1" = [] ∧
    detect_device "192.168.1.1" (envArpPos "192.168.1.1") =
      Except.ok { is_online := true, method_used := "ARP",
                  response_time := some 1,
                  details := "Device detected via ARP" } :=
  ⟨rfl, rfl, rfl⟩

/-- C1 as amended. The sweep requires a four-octet base address: on
`"192.168.1.0"` it probes exactly the 254 hosts `192.168.1.1` through
`192.168.1.254` in ascending order — never `.0` nor `.255` — and for every
environment the returned collection contains only entries whose own detection
result is online; on the bare three-octet prefix `"192.168.1"` it probes
nothing and returns the empty list. -/
theorem claim_C1_sweep_range :
    (scan_network_targets "192.168.1.0").length = 254 ∧
    scan_network_targets "192.168.1.0" =
      (List.range 254).map (fun i => "192.168.1." ++ Nat.repr (i + 1)) ∧
    (scan_network_targets "192.168.1.0").head? = some "192.168.1.1" ∧
    (scan_network_targets "192.168.1.0").getLast? = some "192.168.1.254" ∧
    "192.168.1.0" ∉ scan_network_targets "192.168.1.0" ∧
    "192.168.1.255" ∉ scan_network_targets "192.168.1.0" ∧
    (∀ env : String → Env,
      ((scan_network "192.168.1.0" env).all (onlineEntry env)) = true) ∧
    (∀ env : String → Env, scan_network "192.168.1" env = []) := by
  refine ⟨by decide, rfl, by decide, by decide, by decide, by decide,
    fun env => all_onlineEntry env _, fun env => rfl⟩

/-- C10. For every base input with exactly four dot-separated parts, the
device list returned by the network sweep is ordered by ascending final octet
of the probed addresses: the per-host tasks are awaited and their positive
results appended in spawn order, so the returned addresses form an
order-preserving sublist of the target list `pre ++ ".1"` … `pre ++ ".254"`,
which enumerates the hosts by ascending final octet. -/
theorem claim_C10_sweep_order (base : String) (env : String → Env)
    (h : (strSplitChar base '.').length = 4) :
    ((scan_network base env).map DeviceInfo.ip_address).Sublist
      (scan_network_targets base) ∧
    ∃ pre : String, scan_network_targets base =
      (List.range 254).map fun i => pre ++ "." ++ Nat.repr (i + 1) := by
  refine ⟨map_ip_filterMap_sublist env _, ?_⟩
  cases hs : strSplitChar base '.' with
  | nil => rw [hs] at h; cases h
  | cons a l1 =>
    cases l1 with
    | nil => rw [hs] at h; cases h
    | cons b l2 =>
      cases l2 with
      | nil => rw [hs] at h; cases h
      | cons c l3 =>
        cases l3 with
        | nil => rw [hs] at h; cases h
        | cons d l4 =>
          cases l4 with
          | nil =>
            refine ⟨a ++ "." ++ b ++ "." ++ c, ?_⟩
            simp [scan_network_targets, hs]
          | cons e l5 => rw [hs] at h; simp at h

/-- Closed witness for C10: on the four-part base `"10.0.0.0"` with an
all-negative environment, the (empty) sweep result is a sublist of the target
list, which enumerates `10.0.0.1` … `10.0.0.254`. -/
theorem claim_C10_witness :
    ((scan_network "10.0.0.0" (fun _ => envAllNeg)).map
      DeviceInfo.ip_address).Sublist (scan_network_targets "10.0.0.0") ∧
    ∃ pre : String, scan_network_targets "10.0.0.0" =
      (List.range 254).map fun i => pre ++ "." ++ Nat.repr (i + 1) :=
  claim_C10_sweep_order "10.0.0.0" (fun _ => envAllNeg) (by decide)

end Monitor
